import Mathlib

/-!
Verification development for the icecast exporter (icecast_exporter.go).

The embedding models the scrape-parse-publish cycle:

* `Json` is the value-level model of a decoded JSON document.  An upstream
  response body is modelled as `Option Json`: `none` stands for bytes that are
  not a syntactically valid JSON document, `some j` for bytes whose first JSON
  value is `j`.  (Go's `json.Decoder.Decode` reads one value; both decode
  attempts in `scrape` read the same bytes, hence see the same value or the
  same syntax error.)
* The decoders `decodeStatus` / `decodeStatusSingle` model Go's
  `encoding/json` unmarshalling into the `IcecastStatus` /
  `IcecastStatusSingle` struct types of the source (missing or `null` fields
  keep the zero value, unknown object fields are ignored, a type mismatch is
  an error).  Restrictions of the model, none observable by the claims under
  study: JSON object keys are matched exactly (Go additionally falls back to a
  case-insensitive match), for duplicate keys the last occurrence wins, and
  JSON numbers are modelled as integers.
* `ISO8601` models the custom `UnmarshalJSON`, which runs `time.Parse` with
  layout `"2006-01-02T15:04:05-0700"` on the raw (quoted) bytes: only a JSON
  string whose contents match the fixed layout parses.
* `Exporter` holds the metric state of the Go `Exporter` struct.  Gauge and
  counter values are modelled as `Int` / `Nat` (the Go values are `float64`,
  but every value ever stored is an integer of small magnitude, represented
  exactly).
* `scrape` models `Exporter.scrape` (the fetch outcome is the `ScrapeInput`
  argument; the Go `http.Client.Get` call returns an error only for
  transport-level failures, a received HTTP response is returned without any
  inspection of its status code) and `collect` models `Exporter.Collect`
  (reset of both gauge vectors, then publication of the scraped status, if
  any).
-/

namespace Icecast

/-- Value-level model of a decoded JSON document. -/
inductive Json where
  | null
  | bool (b : Bool)
  | num (n : Int)
  | str (s : String)
  | arr (elems : List Json)
  | obj (fields : List (String × Json))

/-- Model of Go's `time.Time` as far as this program builds them: the seven
components recovered by parsing the fixed ISO8601 layout.  The zone offset is
stored in signed minutes east of UTC. -/
structure ISO8601 where
  year : Nat
  month : Nat
  day : Nat
  hour : Nat
  minute : Nat
  second : Nat
  offsetMinutes : Int
deriving DecidableEq

/-- The zero `time.Time`: January 1, year 1, 00:00:00 UTC. -/
def zeroISO8601 : ISO8601 := ⟨1, 1, 1, 0, 0, 0, 0⟩

/-- Numeric value of a decimal digit. -/
def digitVal (c : Char) : Option Nat :=
  if c.isDigit then some (c.toNat - 48) else none

/-- Read exactly `n` decimal digits, returning their value and the rest. -/
def readDigits : Nat → Nat → List Char → Option (Nat × List Char)
  | 0, acc, cs => some (acc, cs)
  | n + 1, acc, c :: cs =>
    match digitVal c with
    | some d => readDigits n (acc * 10 + d) cs
    | none => none
  | _ + 1, _, [] => none

/-- Consume one expected literal character. -/
def expectChar (c : Char) : List Char → Option (List Char)
  | c2 :: cs => if c2 = c then some cs else none
  | [] => none

/-- Gregorian leap-year rule (as in Go `time`). -/
def isLeapYear (y : Nat) : Bool :=
  y % 4 = 0 && (y % 100 ≠ 0 || y % 400 = 0)

/-- Number of days in a month (as in Go `time`). -/
def daysInMonth (y m : Nat) : Nat :=
  if m = 2 then (if isLeapYear y then 29 else 28)
  else if m = 4 ∨ m = 6 ∨ m = 9 ∨ m = 11 then 30
  else 31

/-- Model of `time.Parse("2006-01-02T15:04:05-0700", s)` restricted to the
success/failure behaviour and the components it recovers: four year digits,
two month digits, two day digits, literal separators, two digits each for
hour, minute, second, then a sign and four zone digits, with the same range
checks Go applies (month 1..12, day within the month, hour below 24, minute
and second below 60), and nothing after the zone. -/
def parseISO8601 (s : String) : Option ISO8601 := do
  let cs := s.data
  let (y, cs) ← readDigits 4 0 cs
  let cs ← expectChar '-' cs
  let (mo, cs) ← readDigits 2 0 cs
  let cs ← expectChar '-' cs
  let (d, cs) ← readDigits 2 0 cs
  let cs ← expectChar 'T' cs
  let (h, cs) ← readDigits 2 0 cs
  let cs ← expectChar ':' cs
  let (mi, cs) ← readDigits 2 0 cs
  let cs ← expectChar ':' cs
  let (sec, cs) ← readDigits 2 0 cs
  match cs with
  | [] => none
  | sc :: cs => do
    let sign : Int ← if sc = '+' then some 1 else if sc = '-' then some (-1) else none
    let (zh, cs) ← readDigits 2 0 cs
    let (zm, cs) ← readDigits 2 0 cs
    if cs = [] ∧ 1 ≤ mo ∧ mo ≤ 12 ∧ 1 ≤ d ∧ d ≤ daysInMonth y mo ∧
        h ≤ 23 ∧ mi ≤ 59 ∧ sec ≤ 59 then
      some ⟨y, mo, d, h, mi, sec, sign * (zh * 60 + zm)⟩
    else
      none

/-- Days from 1970-01-01 to the given civil date (proleptic Gregorian).  The
era arithmetic is shifted by 400 years so it stays in `Nat`. -/
def daysFromEpoch (y m d : Nat) : Int :=
  let yAdj : Nat := if m ≤ 2 then y + 399 else y + 400
  let era : Nat := yAdj / 400
  let yoe : Nat := yAdj % 400
  let mp : Nat := if m ≤ 2 then m + 9 else m - 3
  let doy : Nat := (153 * mp + 2) / 5 + (d - 1)
  let doe : Nat := yoe * 365 + yoe / 4 - yoe / 100 + doy
  (era * 146097 + doe : Int) - 146097 - 719468

/-- Model of `time.Time.Unix()` for a parsed `ISO8601` value: seconds since
the epoch of the local wall-clock reading minus the zone offset. -/
def ISO8601.unix (t : ISO8601) : Int :=
  daysFromEpoch t.year t.month t.day * 86400
    + (t.hour : Int) * 3600 + (t.minute : Int) * 60 + (t.second : Int)
    - t.offsetMinutes * 60

/-- One entry of the `source` array (Go struct `IcecastStatusSource`). -/
structure IcecastStatusSource where
  listeners : Int
  listenurl : String
  serverType : String
  streamStart : ISO8601
deriving DecidableEq

/-- The zero value of `IcecastStatusSource`. -/
def zeroSource : IcecastStatusSource := ⟨0, "", "", zeroISO8601⟩

/-- The anonymous inner struct of `IcecastStatus` (multi-source shape). -/
structure Icestats where
  serverStart : ISO8601
  source : List IcecastStatusSource
deriving DecidableEq

/-- Go struct `IcecastStatus`: the multi-source (sequence) JSON shape. -/
structure IcecastStatus where
  icestats : Icestats
deriving DecidableEq

/-- The anonymous inner struct of `IcecastStatusSingle`. -/
structure IcestatsSingle where
  serverStart : ISO8601
  source : IcecastStatusSource
deriving DecidableEq

/-- Go struct `IcecastStatusSingle`: the single-source (object) JSON shape. -/
structure IcecastStatusSingle where
  icestats : IcestatsSingle
deriving DecidableEq

/-- Value of a key in a JSON object; for duplicate keys the last occurrence
wins, as in `encoding/json` struct decoding. -/
def lookupField (fields : List (String × Json)) (key : String) : Option Json :=
  fields.foldl (fun acc kv => if kv.1 = key then some kv.2 else acc) none

/-- Decode an optional object member into a Go `int` field: absent or `null`
keeps the zero value, a number is taken, anything else is a type error. -/
def decodeIntField : Option Json → Except String Int
  | none => .ok 0
  | some .null => .ok 0
  | some (.num n) => .ok n
  | some _ => .error "cannot unmarshal into field of type int"

/-- Decode an optional object member into a Go `string` field. -/
def decodeStringField : Option Json → Except String String
  | none => .ok ""
  | some .null => .ok ""
  | some (.str s) => .ok s
  | some _ => .error "cannot unmarshal into field of type string"

/-- Decode an optional object member into an `ISO8601` field.  An absent
member keeps the zero value; for a present member `encoding/json` calls the
custom `UnmarshalJSON` (also for `null`), which runs `time.Parse` with a
quoted layout over the raw bytes, so only a JSON string matching the layout
succeeds. -/
def decodeISO8601Field : Option Json → Except String ISO8601
  | none => .ok zeroISO8601
  | some (.str s) =>
    match parseISO8601 s with
    | some t => .ok t
    | none => .error "parsing time"
  | some _ => .error "parsing time"

/-- Decode one JSON value into an `IcecastStatusSource` struct. -/
def decodeSource : Json → Except String IcecastStatusSource
  | .null => .ok zeroSource
  | .obj fields =>
    match decodeIntField (lookupField fields "listeners") with
    | .error e => .error e
    | .ok l =>
      match decodeStringField (lookupField fields "listenurl") with
      | .error e => .error e
      | .ok u =>
        match decodeStringField (lookupField fields "server_type") with
        | .error e => .error e
        | .ok t =>
          match decodeISO8601Field (lookupField fields "stream_start_iso8601") with
          | .error e => .error e
          | .ok ss => .ok ⟨l, u, t, ss⟩
  | _ => .error "cannot unmarshal into IcecastStatusSource"

/-- Decode the elements of a JSON array into `IcecastStatusSource` values. -/
def decodeSources : List Json → Except String (List IcecastStatusSource)
  | [] => .ok []
  | v :: vs =>
    match decodeSource v with
    | .error e => .error e
    | .ok s =>
      match decodeSources vs with
      | .error e => .error e
      | .ok rest => .ok (s :: rest)

/-- Decode an optional object member into the `[]IcecastStatusSource` field:
absent or `null` leaves the nil slice, an array decodes element-wise. -/
def decodeSourcesField : Option Json → Except String (List IcecastStatusSource)
  | none => .ok []
  | some .null => .ok []
  | some (.arr vs) => decodeSources vs
  | some _ => .error "cannot unmarshal into field of slice type"

/-- Decode an optional object member into the struct-typed `Source` field of
the single-source shape. -/
def decodeSourceField : Option Json → Except String IcecastStatusSource
  | none => .ok zeroSource
  | some v => decodeSource v

/-- Decode the `icestats` member for the multi-source shape. -/
def decodeIcestats : Option Json → Except String Icestats
  | none => .ok ⟨zeroISO8601, []⟩
  | some .null => .ok ⟨zeroISO8601, []⟩
  | some (.obj fields) =>
    match decodeISO8601Field (lookupField fields "server_start_iso8601") with
    | .error e => .error e
    | .ok ss =>
      match decodeSourcesField (lookupField fields "source") with
      | .error e => .error e
      | .ok src => .ok ⟨ss, src⟩
  | some _ => .error "cannot unmarshal into field of struct type"

/-- Model of `json.Decode` into `IcecastStatus` (multi-source shape). -/
def decodeStatus : Json → Except String IcecastStatus
  | .null => .ok ⟨⟨zeroISO8601, []⟩⟩
  | .obj fields =>
    match decodeIcestats (lookupField fields "icestats") with
    | .ok is => .ok ⟨is⟩
    | .error e => .error e
  | _ => .error "cannot unmarshal into IcecastStatus"

/-- Decode the `icestats` member for the single-source shape. -/
def decodeIcestatsSingle : Option Json → Except String IcestatsSingle
  | none => .ok ⟨zeroISO8601, zeroSource⟩
  | some .null => .ok ⟨zeroISO8601, zeroSource⟩
  | some (.obj fields) =>
    match decodeISO8601Field (lookupField fields "server_start_iso8601") with
    | .error e => .error e
    | .ok ss =>
      match decodeSourceField (lookupField fields "source") with
      | .error e => .error e
      | .ok src => .ok ⟨ss, src⟩
  | some _ => .error "cannot unmarshal into field of struct type"

/-- Model of `json.Decode` into `IcecastStatusSingle` (single-source shape). -/
def decodeStatusSingle : Json → Except String IcecastStatusSingle
  | .null => .ok ⟨⟨zeroISO8601, zeroSource⟩⟩
  | .obj fields =>
    match decodeIcestatsSingle (lookupField fields "icestats") with
    | .ok is => .ok ⟨is⟩
    | .error e => .error e
  | _ => .error "cannot unmarshal into IcecastStatusSingle"

/-- The copy-over at the end of `scrape`: a decoded single-source status is
rewrapped as a one-element multi-source status. -/
def wrapSingle (s2 : IcecastStatusSingle) : IcecastStatus :=
  ⟨⟨s2.icestats.serverStart, [s2.icestats.source]⟩⟩

/-- The normalisation step of `scrape` (lines 209-228 of the source): decode
the body as the multi-source shape; only if that fails, decode it as the
single-source shape and wrap the result; if both fail, fail.  `none` stands
for a body that is not valid JSON, on which both decode attempts fail with
the same syntax error. -/
def parseStatus : Option Json → Except String IcecastStatus
  | none => .error "invalid JSON"
  | some j =>
    match decodeStatus j with
    | .ok s => .ok s
    | .error _ =>
      match decodeStatusSingle j with
      | .ok s2 => .ok (wrapSingle s2)
      | .error e => .error e

/-- One labelled gauge vector (`prometheus.GaugeVec` restricted to the two
labels this program uses).  The series list never holds two entries with the
same label pair. -/
structure GaugeVec where
  series : List ((String × String) × Int)
deriving DecidableEq

/-- `WithLabelValues(k).Set(v)`: overwrite the entry for `k`, or create it. -/
def setSeries (k : String × String) (v : Int) :
    List ((String × String) × Int) → List ((String × String) × Int)
  | [] => [(k, v)]
  | p :: rest => if p.1 = k then (k, v) :: rest else p :: setSeries k v rest

/-- `GaugeVec` update through `setSeries`. -/
def GaugeVec.set (g : GaugeVec) (k : String × String) (v : Int) : GaugeVec :=
  ⟨setSeries k v g.series⟩

/-- The metric state of the Go `Exporter` struct. -/
structure Exporter where
  up : Int
  totalScrapes : Nat
  jsonParseFailures : Nat
  serverStart : Int
  listeners : GaugeVec
  streamStart : GaugeVec
deriving DecidableEq

/-- The state built by `NewExporter`: every gauge and counter starts at 0 and
both vectors are empty. -/
def newExporter : Exporter := ⟨0, 0, 0, 0, ⟨[]⟩, ⟨[]⟩⟩

/-- The observable outcome of the HTTP fetch inside one `scrape` call.
`transportError` is a network / DNS / TLS / timeout failure, for which
`http.Client.Get` returns a non-nil error.  `response` is a received HTTP
response of any status code, with `readOk = false` standing for a body whose
read fails, and otherwise the body's JSON value (`none` if not valid JSON). -/
inductive ScrapeInput where
  | transportError
  | response (statusCode : Nat) (readOk : Bool) (body : Option Json)

/-- Model of `Exporter.scrape` (lines 186-231 of the source).  The total
scrape counter is always incremented.  On a transport error `up` is set to 0
and no status is produced.  On any received response `up` is set to 1; a body
read failure then resets it to 0; a parse failure increments the JSON parse
failure counter (leaving `up` at 1); on success the decoded status is sent.
The returned `Option IcecastStatus` is the value sent over the status
channel (`none` when the channel is closed without a send). -/
def scrape (e : Exporter) (input : ScrapeInput) : Exporter × Option IcecastStatus :=
  match input with
  | .transportError =>
    ({ e with totalScrapes := e.totalScrapes + 1, up := 0 }, none)
  | .response _ readOk body =>
    if readOk then
      match parseStatus body with
      | .ok s =>
        ({ e with totalScrapes := e.totalScrapes + 1, up := 1 }, some s)
      | .error _ =>
        ({ e with
            totalScrapes := e.totalScrapes + 1
            up := 1
            jsonParseFailures := e.jsonParseFailures + 1 }, none)
    else
      ({ e with totalScrapes := e.totalScrapes + 1, up := 0 }, none)

/-- The publication loop of `Collect` (lines 172-175): set one listeners and
one stream start series per source, keyed by (listenurl, server type). -/
def publishSources :
    List IcecastStatusSource → GaugeVec → GaugeVec → GaugeVec × GaugeVec
  | [], lst, strt => (lst, strt)
  | src :: rest, lst, strt =>
    publishSources rest
      (lst.set (src.listenurl, src.serverType) src.listeners)
      (strt.set (src.listenurl, src.serverType) src.streamStart.unix)

/-- Model of `Exporter.Collect` (lines 160-184 of the source): run one scrape,
reset both gauge vectors, and if a status was produced set the server start
gauge and publish each source.  The returned state is what the collection
channel then renders. -/
def collect (e : Exporter) (input : ScrapeInput) : Exporter :=
  let res := scrape e input
  match res.2 with
  | none => { res.1 with listeners := ⟨[]⟩, streamStart := ⟨[]⟩ }
  | some s =>
    let vecs := publishSources s.icestats.source ⟨[]⟩ ⟨[]⟩
    { res.1 with
      serverStart := s.icestats.serverStart.unix,
      listeners := vecs.1,
      streamStart := vecs.2 }

/-- A scrape input on which the body was read but neither decode succeeds. -/
def ScrapeInput.isParseFailure : ScrapeInput → Bool
  | .response _ true body =>
    match parseStatus body with
    | .ok _ => false
    | .error _ => true
  | _ => false

/-- The label pairs named by a scraped status (`[]` when no status). -/
def statusLabels : Option IcecastStatus → List (String × String)
  | none => []
  | some s => s.icestats.source.map (fun src => (src.listenurl, src.serverType))

/-- The gauge-valued part of the exporter state: `up`, `server_start` and the
two vectors (the counters are excluded). -/
def gauges (e : Exporter) : Int × Int × GaugeVec × GaugeVec :=
  (e.up, e.serverStart, e.listeners, e.streamStart)

/-- A status document with both `icestats` members present. -/
def mkStatusDoc (serverStartVal sourceVal : Json) : Json :=
  .obj [("icestats", .obj [("server_start_iso8601", serverStartVal),
                           ("source", sourceVal)])]

/-- The server start timestamp used by the spec's example document. -/
def exampleServerStart : Json := Json.str "2016-01-01T00:00:00+0000"

/-- The members of the `source` object of the spec's example document. -/
def exampleSourceFields : List (String × Json) :=
  [("listeners", Json.num 5),
   ("listenurl", Json.str "/stream"),
   ("server_type", Json.str "audio/mpeg"),
   ("stream_start_iso8601", Json.str "2016-01-01T01:00:00+0000")]

/-- The spec's example single-source document. -/
def exampleSingleDoc : Json :=
  mkStatusDoc exampleServerStart (Json.obj exampleSourceFields)

/-- The decoded form of the spec's example document. -/
def exampleSingleStat : IcecastStatusSingle :=
  ⟨⟨⟨2016, 1, 1, 0, 0, 0, 0⟩,
    ⟨5, "/stream", "audio/mpeg", ⟨2016, 1, 1, 1, 0, 0, 0⟩⟩⟩⟩

/-- Members of the first source of a two-source example document. -/
def sourceFieldsA : List (String × Json) :=
  [("listeners", Json.num 3),
   ("listenurl", Json.str "/a"),
   ("server_type", Json.str "audio/ogg"),
   ("stream_start_iso8601", Json.str "2016-01-01T01:00:00+0000")]

/-- Members of the second source of a two-source example document. -/
def sourceFieldsB : List (String × Json) :=
  [("listeners", Json.num 7),
   ("listenurl", Json.str "/b"),
   ("server_type", Json.str "audio/mpeg"),
   ("stream_start_iso8601", Json.str "2016-01-01T02:00:00+0000")]

/-- The decoded form of the two-source example document. -/
def twoSourceStatus : IcecastStatus :=
  ⟨⟨⟨2016, 1, 1, 0, 0, 0, 0⟩,
    [⟨3, "/a", "audio/ogg", ⟨2016, 1, 1, 1, 0, 0, 0⟩⟩,
     ⟨7, "/b", "audio/mpeg", ⟨2016, 1, 1, 2, 0, 0, 0⟩⟩]⟩⟩

end Icecast

namespace Icecast

/-! ### Helper lemmas -/

theorem setSeries_keys (k : String × String) (v : Int)
    (l : List ((String × String) × Int)) (p : String × String) :
    p ∈ (setSeries k v l).map Prod.fst ↔ p = k ∨ p ∈ l.map Prod.fst := by
  induction l with
  | nil => simp [setSeries]
  | cons q rest ih =>
    by_cases hq : q.1 = k
    · simp only [setSeries, if_pos hq, List.map_cons, List.mem_cons]
      rw [hq]
      tauto
    · simp only [setSeries, if_neg hq, List.map_cons, List.mem_cons]
      rw [ih]
      tauto

theorem publishSources_keys (srcs : List IcecastStatusSource) :
    ∀ (lst strt : GaugeVec) (p : String × String),
      (p ∈ (publishSources srcs lst strt).1.series.map Prod.fst ↔
        p ∈ lst.series.map Prod.fst ∨
          p ∈ srcs.map fun s => (s.listenurl, s.serverType)) ∧
      (p ∈ (publishSources srcs lst strt).2.series.map Prod.fst ↔
        p ∈ strt.series.map Prod.fst ∨
          p ∈ srcs.map fun s => (s.listenurl, s.serverType)) := by
  induction srcs with
  | nil =>
    intro lst strt p
    simp [publishSources]
  | cons src rest ih =>
    intro lst strt p
    have h := ih (lst.set (src.listenurl, src.serverType) src.listeners)
      (strt.set (src.listenurl, src.serverType) src.streamStart.unix) p
    constructor
    · simp only [publishSources]
      rw [h.1]
      simp only [GaugeVec.set, setSeries_keys, List.map_cons, List.mem_cons]
      tauto
    · simp only [publishSources]
      rw [h.2]
      simp only [GaugeVec.set, setSeries_keys, List.map_cons, List.mem_cons]
      tauto

theorem collect_success (e : Exporter) (sc : Nat) (b : Option Json)
    (s : IcecastStatus) (h : parseStatus b = .ok s) :
    collect e (ScrapeInput.response sc true b) =
      { up := 1, totalScrapes := e.totalScrapes + 1,
        jsonParseFailures := e.jsonParseFailures,
        serverStart := s.icestats.serverStart.unix,
        listeners := (publishSources s.icestats.source ⟨[]⟩ ⟨[]⟩).1,
        streamStart := (publishSources s.icestats.source ⟨[]⟩ ⟨[]⟩).2 } := by
  simp [collect, scrape, h]

theorem decodeStatus_mkStatusDoc (ssv v : Json) :
    decodeStatus (mkStatusDoc ssv v) =
      match decodeISO8601Field (some ssv) with
      | .error e => .error e
      | .ok ss =>
        match decodeSourcesField (some v) with
        | .error e => .error e
        | .ok src => .ok ⟨⟨ss, src⟩⟩ := by
  have h1 : lookupField [("icestats",
      Json.obj [("server_start_iso8601", ssv), ("source", v)])] "icestats" =
      some (Json.obj [("server_start_iso8601", ssv), ("source", v)]) := rfl
  have h2 : lookupField [("server_start_iso8601", ssv), ("source", v)]
      "server_start_iso8601" = some ssv := rfl
  have h3 : lookupField [("server_start_iso8601", ssv), ("source", v)]
      "source" = some v := rfl
  simp only [mkStatusDoc, decodeStatus, h1, decodeIcestats, h2, h3]
  cases decodeISO8601Field (some ssv) with
  | error e => rfl
  | ok ss =>
    cases decodeSourcesField (some v) with
    | error e => rfl
    | ok src => rfl

theorem decodeStatusSingle_mkStatusDoc (ssv v : Json) :
    decodeStatusSingle (mkStatusDoc ssv v) =
      match decodeISO8601Field (some ssv) with
      | .error e => .error e
      | .ok ss =>
        match decodeSourceField (some v) with
        | .error e => .error e
        | .ok src => .ok ⟨⟨ss, src⟩⟩ := by
  have h1 : lookupField [("icestats",
      Json.obj [("server_start_iso8601", ssv), ("source", v)])] "icestats" =
      some (Json.obj [("server_start_iso8601", ssv), ("source", v)]) := rfl
  have h2 : lookupField [("server_start_iso8601", ssv), ("source", v)]
      "server_start_iso8601" = some ssv := rfl
  have h3 : lookupField [("server_start_iso8601", ssv), ("source", v)]
      "source" = some v := rfl
  simp only [mkStatusDoc, decodeStatusSingle, h1, decodeIcestatsSingle, h2, h3]
  cases decodeISO8601Field (some ssv) with
  | error e => rfl
  | ok ss =>
    cases decodeSourceField (some v) with
    | error e => rfl
    | ok src => rfl

theorem decodeSources_ok (vs : List Json) (l : List IcecastStatusSource)
    (h : decodeSources vs = .ok l) :
    l.length = vs.length ∧
    ∀ i, i < vs.length →
      decodeSource (vs.getD i Json.null) = .ok (l.getD i zeroSource) := by
  induction vs generalizing l with
  | nil =>
    simp [decodeSources] at h
    subst h
    simp
  | cons v vs ih =>
    cases h1 : decodeSource v with
    | error e => rw [decodeSources, h1] at h; cases h
    | ok s0 =>
      cases h2 : decodeSources vs with
      | error e => rw [decodeSources, h1, h2] at h; cases h
      | ok rest =>
        rw [decodeSources, h1, h2] at h
        cases h
        obtain ⟨hlen, hpt⟩ := ih rest h2
        refine ⟨by simp [hlen], ?_⟩
        intro i hi
        cases i with
        | zero => simpa using h1
        | succ n =>
          simp only [List.getD_cons_succ]
          exact hpt n (by simpa using hi)

end Icecast

namespace Icecast

/-! ### Claim theorems -/

/-- C7: every `collect()` call, whatever the outcome of the cycle (success,
fetch failure, read failure or parse failure), increments the total-scrape
counter exactly once. -/
theorem claim7_total_scrapes_once (e : Exporter) (input : ScrapeInput) :
    (collect e input).totalScrapes = e.totalScrapes + 1 := by
  rcases input with _ | ⟨sc, ro, b⟩
  · rfl
  · cases ro
    · rfl
    · cases h : parseStatus b with
      | ok s => simp [collect, scrape, h]
      | error msg => simp [collect, scrape, h]

/-- C10: the `server_start` gauge is assigned only when the cycle produces a
status; on any failed cycle it keeps the value it had before the cycle. -/
theorem claim10_server_start_frame (e : Exporter) (input : ScrapeInput) :
    (collect e input).serverStart =
      match (scrape e input).2 with
      | none => e.serverStart
      | some s => s.icestats.serverStart.unix := by
  rcases input with _ | ⟨sc, ro, b⟩
  · rfl
  · cases ro
    · rfl
    · cases h : parseStatus b with
      | ok s => simp [collect, scrape, h]
      | error msg => simp [collect, scrape, h]

/-- C5 amended: the fetch step fails (error branch of `client.Get`) only for
transport-level errors; a received HTTP response is processed identically
whatever its status code (the code never inspects it), with `up` set to 1
whenever the body is readable. -/
theorem claim5_fetch_failure_is_transport_only (e : Exporter) (sc sc2 : Nat)
    (ro : Bool) (b : Option Json) :
    scrape e (ScrapeInput.response sc ro b) =
      scrape e (ScrapeInput.response sc2 ro b) ∧
    (scrape e (ScrapeInput.response sc true b)).1.up = 1 ∧
    (scrape e ScrapeInput.transportError).1.up = 0 ∧
    (scrape e ScrapeInput.transportError).2 = none := by
  refine ⟨rfl, ?_, rfl, rfl⟩
  cases h : parseStatus b with
  | ok s => simp [scrape, h]
  | error msg => simp [scrape, h]

/-- C5 counterexample: a received response with status code 500 and a
readable, decodable body is not treated as a fetch failure — `up` is set to 1
and a status is produced, contradicting the claim that any non-2xx response
yields Failure. -/
theorem claim5_counterexample :
    (scrape newExporter (ScrapeInput.response 500 true
        (some (Json.obj [("icestats", Json.obj [])])))).1.up = 1 ∧
    (scrape newExporter (ScrapeInput.response 500 true
        (some (Json.obj [("icestats", Json.obj [])])))).2 =
      some ⟨⟨zeroISO8601, []⟩⟩ :=
  ⟨rfl, rfl⟩

/-- C2: the normalizer decodes the multi-source shape first; only if that
fails does it decode the single-source shape, wrapping the result into a
one-element sequence; if both decodes fail it returns a parse failure, and
`scrape` then publishes no status. -/
theorem claim2_normalizer_order :
    (∀ (j : Json) (s : IcecastStatus), decodeStatus j = .ok s →
      parseStatus (some j) = .ok s) ∧
    (∀ (j : Json) (e1 : String) (s2 : IcecastStatusSingle),
      decodeStatus j = .error e1 → decodeStatusSingle j = .ok s2 →
      parseStatus (some j) = .ok (wrapSingle s2)) ∧
    (∀ (j : Json) (e1 e2 : String),
      decodeStatus j = .error e1 → decodeStatusSingle j = .error e2 →
      ∃ msg, parseStatus (some j) = .error msg) ∧
    (∀ (e : Exporter) (sc : Nat) (b : Option Json) (msg : String),
      parseStatus b = .error msg →
      (scrape e (ScrapeInput.response sc true b)).2 = none) := by
  refine ⟨?_, ?_, ?_, ?_⟩
  · intro j s h
    simp [parseStatus, h]
  · intro j e1 s2 h1 h2
    simp [parseStatus, h1, h2]
  · intro j e1 e2 h1 h2
    exact ⟨e2, by simp [parseStatus, h1, h2]⟩
  · intro e sc b msg h
    simp [scrape, h]

theorem claim2_witness :
    ∃ msg, parseStatus (some (Json.num 5)) = Except.error msg :=
  claim2_normalizer_order.2.2.1 (Json.num 5)
    "cannot unmarshal into IcecastStatus"
    "cannot unmarshal into IcecastStatusSingle" rfl rfl

/-- C1 amended: after any failed cycle both per-source vectors are empty; on
a fetch (transport) or body-read failure `up` is 0 and no failure counter
exists or changes; on a parse failure the JSON parse failure counter is
incremented while `up` keeps the value 1 it was given when the fetch
succeeded. -/
theorem claim1_failed_cycle_effects (e : Exporter) (input : ScrapeInput)
    (h : (scrape e input).2 = none) :
    (collect e input).listeners.series = [] ∧
    (collect e input).streamStart.series = [] ∧
    (collect e input).up = (if input.isParseFailure = true then 1 else 0) ∧
    (collect e input).jsonParseFailures =
      e.jsonParseFailures +
        (if input.isParseFailure = true then 1 else 0) := by
  rcases input with _ | ⟨sc, ro, b⟩
  · exact ⟨rfl, rfl, rfl, rfl⟩
  · cases ro
    · exact ⟨rfl, rfl, rfl, rfl⟩
    · cases hp : parseStatus b with
      | ok s => simp [scrape, hp] at h
      | error msg =>
        refine ⟨?_, ?_, ?_, ?_⟩ <;>
          simp [collect, scrape, ScrapeInput.isParseFailure, hp]

/-- C1 counterexample: a cycle that fails at the parse stage (body `5` is a
JSON number, matching neither shape) ends with `up = 1`, not 0 as the claim
states. -/
theorem claim1_counterexample :
    (scrape newExporter (ScrapeInput.response 200 true (some (Json.num 5)))).2
      = none ∧
    (collect newExporter
      (ScrapeInput.response 200 true (some (Json.num 5)))).up = 1 :=
  ⟨rfl, rfl⟩

theorem claim1_witness :
    (collect newExporter ScrapeInput.transportError).listeners.series = [] ∧
    (collect newExporter ScrapeInput.transportError).streamStart.series = [] ∧
    (collect newExporter ScrapeInput.transportError).up =
      (if ScrapeInput.transportError.isParseFailure = true then 1 else 0) ∧
    (collect newExporter ScrapeInput.transportError).jsonParseFailures =
      newExporter.jsonParseFailures +
        (if ScrapeInput.transportError.isParseFailure = true then 1 else 0) :=
  claim1_failed_cycle_effects newExporter ScrapeInput.transportError rfl

/-- C4 amended: a readable body that fails both decode attempts increments
the parse failure counter by exactly 1 and the total scrape counter by
exactly 1, but leaves `up` at 1 (not 0): `up` was set when the fetch
succeeded and a parse failure does not reset it. -/
theorem claim4_unparseable_body_effects (e : Exporter) (sc : Nat)
    (b : Option Json) (h : ∃ msg, parseStatus b = Except.error msg) :
    (collect e (ScrapeInput.response sc true b)).jsonParseFailures =
      e.jsonParseFailures + 1 ∧
    (collect e (ScrapeInput.response sc true b)).totalScrapes =
      e.totalScrapes + 1 ∧
    (collect e (ScrapeInput.response sc true b)).up = 1 := by
  obtain ⟨msg, h⟩ := h
  refine ⟨?_, ?_, ?_⟩ <;> simp [collect, scrape, h]

/-- C4 counterexample: the claim's example document `{"icestats": {}}` is not
a parse failure — Go's decoder leaves missing fields at their zero values, so
the multi-source decode succeeds with zero sources, the parse failure counter
stays 0 and `up` ends at 1. -/
theorem claim4_counterexample :
    parseStatus (some (Json.obj [("icestats", Json.obj [])])) =
      Except.ok ⟨⟨zeroISO8601, []⟩⟩ ∧
    (collect newExporter (ScrapeInput.response 200 true
        (some (Json.obj [("icestats", Json.obj [])])))).jsonParseFailures
      = 0 ∧
    (collect newExporter (ScrapeInput.response 200 true
        (some (Json.obj [("icestats", Json.obj [])])))).up = 1 :=
  ⟨rfl, rfl, rfl⟩

theorem claim4_witness :
    (collect newExporter
        (ScrapeInput.response 200 true none)).jsonParseFailures =
      newExporter.jsonParseFailures + 1 ∧
    (collect newExporter (ScrapeInput.response 200 true none)).totalScrapes =
      newExporter.totalScrapes + 1 ∧
    (collect newExporter (ScrapeInput.response 200 true none)).up = 1 :=
  claim4_unparseable_body_effects newExporter 200 none ⟨"invalid JSON", rfl⟩

end Icecast

namespace Icecast

/-- C6: after any cycle, the label pairs present in each exposed vector are
exactly those of that cycle's parse result (empty on failure or on a
zero-source scrape) — no pair from an earlier cycle survives — and repeating
a cycle with identical content leaves every gauge-valued metric unchanged. -/
theorem claim6_label_set_invariant (e : Exporter) (input : ScrapeInput) :
    (∀ p : String × String,
      (p ∈ (collect e input).listeners.series.map Prod.fst ↔
        p ∈ statusLabels (scrape e input).2) ∧
      (p ∈ (collect e input).streamStart.series.map Prod.fst ↔
        p ∈ statusLabels (scrape e input).2)) ∧
    gauges (collect (collect e input) input) = gauges (collect e input) := by
  constructor
  · intro p
    rcases input with _ | ⟨sc, ro, b⟩
    · simp [collect, scrape, statusLabels]
    · cases ro
      · simp [collect, scrape, statusLabels]
      · cases h : parseStatus b with
        | error msg => simp [collect, scrape, statusLabels, h]
        | ok s =>
          have hc := collect_success e sc b s h
          have hs : (scrape e (ScrapeInput.response sc true b)).2 = some s := by
            simp [scrape, h]
          have hl : (collect e (ScrapeInput.response sc true b)).listeners =
              (publishSources s.icestats.source ⟨[]⟩ ⟨[]⟩).1 := by rw [hc]
          have ht : (collect e (ScrapeInput.response sc true b)).streamStart =
              (publishSources s.icestats.source ⟨[]⟩ ⟨[]⟩).2 := by rw [hc]
          have hk := publishSources_keys s.icestats.source ⟨[]⟩ ⟨[]⟩ p
          rw [hl, ht, hs]
          constructor
          · rw [hk.1]
            simp [statusLabels]
          · rw [hk.2]
            simp [statusLabels]
  · rcases input with _ | ⟨sc, ro, b⟩
    · simp [collect, scrape, gauges]
    · cases ro
      · simp [collect, scrape, gauges]
      · cases h : parseStatus b with
        | error msg => simp [collect, scrape, gauges, h]
        | ok s => simp [collect, scrape, gauges, h]

/-- C3: a well-formed single-source document (whose `source` member is an
object) parses, through the single-shape fallback, to exactly one source,
and equals the parse of the same document with `source` replaced by the
one-element sequence holding that object; on the spec's example document the
exposed listeners vector holds the single series
`(listenurl "/stream", server type "audio/mpeg") = 5`. -/
theorem claim3_single_source_shape :
    (∀ (ssv : Json) (fs : List (String × Json)) (s2 : IcecastStatusSingle),
      decodeStatusSingle (mkStatusDoc ssv (Json.obj fs)) = .ok s2 →
      parseStatus (some (mkStatusDoc ssv (Json.obj fs))) =
        .ok (wrapSingle s2) ∧
      parseStatus (some (mkStatusDoc ssv (Json.arr [Json.obj fs]))) =
        .ok (wrapSingle s2) ∧
      (wrapSingle s2).icestats.source.length = 1) ∧
    (collect newExporter (ScrapeInput.response 200 true
        (some exampleSingleDoc))).listeners.series =
      [(("/stream", "audio/mpeg"), 5)] := by
  constructor
  · intro ssv fs s2 h
    rw [decodeStatusSingle_mkStatusDoc] at h
    cases h1 : decodeISO8601Field (some ssv) with
    | error msg => rw [h1] at h; cases h
    | ok ss =>
      rw [h1] at h
      cases h2 : decodeSourceField (some (Json.obj fs)) with
      | error msg => rw [h2] at h; cases h
      | ok src =>
        rw [h2] at h
        injection h with h
        subst h
        have h2' : decodeSource (Json.obj fs) = Except.ok src := h2
        have hm : decodeStatus (mkStatusDoc ssv (Json.obj fs)) =
            Except.error "cannot unmarshal into field of slice type" := by
          rw [decodeStatus_mkStatusDoc, h1]
          rfl
        have hsingle : decodeStatusSingle (mkStatusDoc ssv (Json.obj fs)) =
            Except.ok ⟨⟨ss, src⟩⟩ := by
          rw [decodeStatusSingle_mkStatusDoc, h1, h2]
        have hlist : decodeSourcesField (some (Json.arr [Json.obj fs])) =
            Except.ok [src] := by
          show decodeSources [Json.obj fs] = Except.ok [src]
          simp only [decodeSources, h2']
        have hmulti : decodeStatus (mkStatusDoc ssv (Json.arr [Json.obj fs])) =
            Except.ok ⟨⟨ss, [src]⟩⟩ := by
          rw [decodeStatus_mkStatusDoc, h1, hlist]
        refine ⟨?_, ?_, rfl⟩
        · simp [parseStatus, hm, hsingle, wrapSingle]
        · simp [parseStatus, hmulti, wrapSingle]
  · rfl

theorem claim3_witness :
    parseStatus (some (mkStatusDoc exampleServerStart
        (Json.obj exampleSourceFields))) =
      Except.ok (wrapSingle exampleSingleStat) :=
  (claim3_single_source_shape.1 exampleServerStart exampleSourceFields
    exampleSingleStat rfl).1

/-- C8: a well-formed multi-source document with N sources decodes, through
the multi-source shape (no fallback), to exactly N entries, each decoded from
the corresponding JSON array element in order. -/
theorem claim8_multi_source_decode (ssv : Json) (vs : List Json)
    (s : IcecastStatus)
    (h : decodeStatus (mkStatusDoc ssv (Json.arr vs)) = .ok s) :
    parseStatus (some (mkStatusDoc ssv (Json.arr vs))) = .ok s ∧
    s.icestats.source.length = vs.length ∧
    ∀ i, i < vs.length →
      decodeSource (vs.getD i Json.null) =
        .ok (s.icestats.source.getD i zeroSource) := by
  have hp : parseStatus (some (mkStatusDoc ssv (Json.arr vs))) = .ok s := by
    simp [parseStatus, h]
  rw [decodeStatus_mkStatusDoc] at h
  cases h1 : decodeISO8601Field (some ssv) with
  | error msg => rw [h1] at h; cases h
  | ok ss =>
    rw [h1] at h
    cases h2 : decodeSourcesField (some (Json.arr vs)) with
    | error msg => rw [h2] at h; cases h
    | ok l =>
      rw [h2] at h
      injection h with h
      have h2' : decodeSources vs = Except.ok l := h2
      obtain ⟨hlen, hpt⟩ := decodeSources_ok vs l h2'
      subst h
      exact ⟨hp, hlen, hpt⟩

theorem claim8_witness :
    parseStatus (some (mkStatusDoc exampleServerStart
        (Json.arr [Json.obj sourceFieldsA, Json.obj sourceFieldsB]))) =
      Except.ok twoSourceStatus ∧
    twoSourceStatus.icestats.source.length =
      [Json.obj sourceFieldsA, Json.obj sourceFieldsB].length :=
  ⟨(claim8_multi_source_decode exampleServerStart
      [Json.obj sourceFieldsA, Json.obj sourceFieldsB] twoSourceStatus rfl).1,
   (claim8_multi_source_decode exampleServerStart
      [Json.obj sourceFieldsA, Json.obj sourceFieldsB] twoSourceStatus rfl).2.1⟩

end Icecast
